import Mathlib

/-
Verification of the presence & synchronization engine of avatar-aim.

The definitions below are a shallow embedding of the overlay / main-process
code: the roster and avatar state of src/src/HangoutOverlay.tsx, and the
window-management handlers of the Electron main process (the revision in
src/unnamed/part_002, which matches the preload bridge in src/unnamed/part_001
and the overlay's use of requestHangoutData). JavaScript numbers that only
ever hold pixel coordinates are modelled as Int; timer scheduling
(setTimeout) is modelled by explicit lists of absolute fire times processed
in time order, as the single-threaded event loop does.
-/

namespace AvatarAim

/-- Profile row as selected from the `profiles` table (lib/supabase.ts),
restricted to the fields the overlay reads. -/
structure Profile where
  id : String
  screen_name : String
  status : String
deriving DecidableEq

/-- Participant record of HangoutOverlay.tsx (interface Participant):
a hangout_sessions row enriched with an optional profile. -/
structure Participant where
  id : String
  user_id : String
  avatar_x : Int
  avatar_y : Int
  avatar_type : String
  profile : Option Profile
deriving DecidableEq

/-- Broadcast handler for the `avatar-move` event
(HangoutOverlay.tsx lines 121-127): map over the roster, overwriting
avatar_x/avatar_y of entries whose user_id matches the payload's userId. -/
def applyAvatarMove (ps : List Participant) (uid : String) (x y : Int) :
    List Participant :=
  ps.map fun p =>
    if p.user_id = uid then { p with avatar_x := x, avatar_y := y } else p

/-- Avatar component state (HangoutOverlay.tsx `Avatar`): displayed
position, drag/hover flags, the transient action and the action menu flag. -/
structure AvatarState where
  position : Int × Int
  isDragging : Bool
  isHovering : Bool
  currentAction : Option String
  showActions : Bool
deriving DecidableEq

/-- Position-sync effect (HangoutOverlay.tsx lines 249-253): copy the
participant prop's coordinates into the displayed position unless a local
drag is in progress. -/
def syncPosition (s : AvatarState) (p : Participant) : AvatarState :=
  if s.isDragging then s
  else { s with position := (p.avatar_x, p.avatar_y) }

/-- Displayed position of the avatar for `selfId` after an `avatar-move`
broadcast for `uid` is consumed: the broadcast handler rewrites the roster,
then the Avatar position-sync effect runs on the participant's own entry. -/
def displayedAfterMove (s : AvatarState) (ps : List Participant)
    (uid : String) (qx qy : Int) (selfId : String) : Int × Int :=
  match (applyAvatarMove ps uid qx qy).find? (fun p => p.user_id = selfId) with
  | some p => (syncPosition s p).position
  | none => s.position

/-- Durable hangout_sessions row, restricted to the fields the drag-commit
update touches or filters on. -/
structure SessionRow where
  conversation_id : String
  user_id : String
  avatar_x : Int
  avatar_y : Int
deriving DecidableEq

/-- Supabase update of hangout_sessions filtered by
.eq on conversation_id = conv and on user_id = uid
(HangoutOverlay.tsx lines 293-297): rewrite avatar_x/avatar_y of every
matching row; no row is inserted or removed, and zero matches is not an
error. -/
def updateSession (store : List SessionRow) (conv uid : String) (x y : Int) :
    List SessionRow :=
  store.map fun r =>
    if r.conversation_id = conv ∧ r.user_id = uid then
      { r with avatar_x := x, avatar_y := y }
    else r

/-- Result of the pointer-up handler: the avatar's visual state, the
ignore-mouse-events flag it requests, and the durable store afterwards. -/
structure DragEndResult where
  avatar : AvatarState
  ignoreMouse : Bool
  store : List SessionRow
deriving DecidableEq

/-- handleMouseUp (HangoutOverlay.tsx lines 286-298): clear the drag flag,
unconditionally re-enable click-through, then issue one update of the
session row with the current displayed position. The flag `writeOk` models
whether the durable write succeeds; the handler ignores the result either
way (no rollback, no retry). -/
def handleMouseUp (s : AvatarState) (conv uid : String)
    (store : List SessionRow) (writeOk : Bool) : DragEndResult :=
  { avatar := { s with isDragging := false }
    ignoreMouse := true
    store :=
      if writeOk then updateSession store conv uid s.position.1 s.position.2
      else store }

/-- Result of a pointer-move tick while dragging: the displayed position
set by setPosition and the (x, y) of the published avatar-move event. -/
structure MoveResult where
  displayed : Int × Int
  published : Int × Int
deriving DecidableEq

/-- handleMouseMove (HangoutOverlay.tsx lines 273-284): clamp the pointer
position minus the drag offset to [0, innerWidth - 150] x
[0, innerHeight - 200], display the clamped point and broadcast the same
coordinates on the avatar-move event. -/
def handleMouseMove (w h cx cy ox oy : Int) : MoveResult :=
  let nx := max 0 (min (w - 150) (cx - ox))
  let ny := max 0 (min (h - 200) (cy - oy))
  { displayed := (nx, ny), published := (nx, ny) }

/-- Gesture-relevant slice of the Avatar component state, together with the
absolute fire times of the pending setTimeout clears. -/
structure GestureState where
  currentAction : Option String
  showActions : Bool
  pending : List Nat
deriving DecidableEq

/-- handleAvatarAction (HangoutOverlay.tsx lines 183-186): the handler for
bus `avatar-action` broadcasts only logs the payload; it performs no state
update ("This will be expanded for avatar interactions"). -/
def handleAvatarAction (s : GestureState) (_userId _action : String) :
    GestureState := s

/-- triggerAction (HangoutOverlay.tsx lines 325-338): set the transient
current action, hide the action menu, broadcast the action, and schedule a
clear of the action 2000 ms later. -/
def triggerAction (s : GestureState) (a : String) (now : Nat) : GestureState :=
  { currentAction := some a
    showActions := false
    pending := s.pending ++ [now + 2000] }

/-- Fire every pending gesture-clear timer due at or before `now`: each one
runs setCurrentAction(null). -/
def fireDueGesture (now : Nat) (s : GestureState) : GestureState :=
  { s with
    currentAction := if s.pending.any (· ≤ now) then none else s.currentAction
    pending := s.pending.filter (fun t => decide (now < t)) }

/-- Gesture-related events: an `avatar-action` broadcast received from the
bus, or a local click on one of the action buttons. -/
inductive GestureEvent where
  | busAction (userId action : String)
  | localTrigger (action : String)
deriving DecidableEq

/-- Dispatch one gesture event at time `now`. -/
def applyGestureEvent (s : GestureState) (e : GestureEvent) (now : Nat) :
    GestureState :=
  match e with
  | .busAction u a => handleAvatarAction s u a
  | .localTrigger a => triggerAction s a now

/-- Run a time-ordered trace of gesture events on the single-threaded event
loop: before each event is dispatched, every timer due by then fires. -/
def runGesture : GestureState → List (Nat × GestureEvent) → GestureState
  | s, [] => s
  | s, (t, e) :: rest => runGesture (applyGestureEvent (fireDueGesture t s) e t) rest

/-- Initial gesture state of a freshly mounted Avatar: no action shown,
menu hidden, no timers. -/
def initGesture : GestureState :=
  { currentAction := none, showActions := false, pending := [] }

/-- Gesture displayed at time `t` after a trace: run the trace, then fire
every timer due by `t`, and read currentAction. -/
def gestureShownAt (trace : List (Nat × GestureEvent)) (t : Nat) :
    Option String :=
  (fireDueGesture t (runGesture initGesture trace)).currentAction

/-- Capture-relevant state of the overlay surface: the ignore-mouse-events
flag of the window, the Avatar hover/drag/menu flags, and the absolute fire
times of the pending 100 ms re-enable timers. -/
structure OverlayState where
  ignore : Bool
  hovering : Bool
  dragging : Bool
  showActions : Bool
  pending : List Nat
deriving DecidableEq

/-- Hover events on an avatar: pointer enters or leaves it. -/
inductive HoverEvent where
  | enter
  | leave
deriving DecidableEq

/-- Fire every pending capture-release timer due at or before `now`: each
one runs setIgnoreMouseEvents(true) unconditionally
(HangoutOverlay.tsx lines 319-321). -/
def fireDueCapture (now : Nat) (s : OverlayState) : OverlayState :=
  { s with
    ignore := if s.pending.any (· ≤ now) then true else s.ignore
    pending := s.pending.filter (fun t => decide (now < t)) }

/-- handleMouseEnter / handleMouseLeave (HangoutOverlay.tsx lines 309-323):
enter sets hovering and requests capture (ignore := false); leave clears
hovering and, when neither dragging nor the action menu is open, schedules
setIgnoreMouseEvents(true) 100 ms later. Nothing ever cancels a scheduled
timer. -/
def applyHoverEvent (s : OverlayState) (e : HoverEvent) (now : Nat) :
    OverlayState :=
  match e with
  | .enter => { s with hovering := true, ignore := false }
  | .leave =>
    let s1 := { s with hovering := false }
    if !s1.dragging && !s1.showActions then
      { s1 with pending := s1.pending ++ [now + 100] }
    else s1

/-- Run a time-ordered trace of hover events on the single-threaded event
loop: before each event is dispatched, every timer due by then fires. -/
def runHover : OverlayState → List (Nat × HoverEvent) → OverlayState
  | s, [] => s
  | s, (t, e) :: rest => runHover (applyHoverEvent (fireDueCapture t s) e t) rest

/-- Initial overlay surface state: click-through (ignore := true, the
creation default of the hangout window), nothing hovered or dragged. -/
def initOverlay : OverlayState :=
  { ignore := true, hovering := false, dragging := false,
    showActions := false, pending := [] }

/-- Capture state at time `t` after a trace: run the trace, then fire every
timer due by `t`. -/
def captureStateAt (trace : List (Nat × HoverEvent)) (t : Nat) : OverlayState :=
  fireDueCapture t (runHover initOverlay trace)

/-- Overlay BrowserWindow handle as far as the IPC handlers observe it:
an identity, the destroyed flag, and the ignore-mouse-events flag. -/
structure SurfaceWindow where
  wid : Nat
  destroyed : Bool
  ignoreMouse : Bool
deriving DecidableEq

/-- Payload pushed to the overlay on the `hangout-update` channel. -/
structure HangoutData where
  conversationId : String
  participants : List Participant
deriving DecidableEq

/-- Message sent from the main process to a renderer window. -/
inductive MainMsg where
  | hangoutUpdate (wid : Nat) (data : HangoutData)
deriving DecidableEq

/-- Main-process state (src/unnamed/part_002): the mutable hangoutWindow
and currentHangoutData globals, a fresh-id counter for window creation, and
the log of webContents.send messages. -/
structure MainState where
  hangoutWindow : Option SurfaceWindow
  currentHangoutData : Option HangoutData
  nextId : Nat
  sent : List MainMsg
deriving DecidableEq

/-- Window-creation branch of createHangoutWindow: allocate a fresh
transparent window, click-through by default (setIgnoreMouseEvents(true)),
and push the initial data on did-finish-load. -/
def newHangoutWindow (s : MainState) (d : HangoutData) : MainState :=
  { s with
    hangoutWindow := some { wid := s.nextId, destroyed := false, ignoreMouse := true }
    nextId := s.nextId + 1
    sent := s.sent ++ [MainMsg.hangoutUpdate s.nextId d] }

/-- createHangoutWindow (src/unnamed/part_002 lines 39-105): store the data
in currentHangoutData; if a live window already exists, only send it the
fresh data and return; otherwise create the window. -/
def createHangoutWindow (s : MainState) (d : HangoutData) : MainState :=
  let s1 := { s with currentHangoutData := some d }
  match s1.hangoutWindow with
  | some w =>
    if w.destroyed then newHangoutWindow s1 d
    else { s1 with sent := s1.sent ++ [MainMsg.hangoutUpdate w.wid d] }
  | none => newHangoutWindow s1 d

/-- ipcMain handler for close-hangout-window (src/unnamed/part_002 lines
112-117): close the window and null the global only when a live window
exists; otherwise do nothing. -/
def closeHangoutWindowHandler (s : MainState) : MainState :=
  match s.hangoutWindow with
  | some w => if w.destroyed then s else { s with hangoutWindow := none }
  | none => s

/-- ipcMain handler for set-ignore-mouse-events (src/unnamed/part_002 lines
127-136): set the flag on the window only when a live window exists;
otherwise do nothing. -/
def setIgnoreMouseEventsHandler (s : MainState) (ignore : Bool) : MainState :=
  match s.hangoutWindow with
  | some w =>
    if w.destroyed then s
    else { s with hangoutWindow := some { w with ignoreMouse := ignore } }
  | none => s

/-- ipcMain handler for request-hangout-data (src/unnamed/part_002 lines
139-144): resend currentHangoutData only when a live window and stored data
both exist; otherwise do nothing. -/
def requestHangoutDataHandler (s : MainState) : MainState :=
  match s.hangoutWindow, s.currentHangoutData with
  | some w, some d =>
    if w.destroyed then s
    else { s with sent := s.sent ++ [MainMsg.hangoutUpdate w.wid d] }
  | _, _ => s

/-- Raw hangout_sessions row as returned by the roster re-read
(reloadParticipants select), restricted to the fields the overlay uses. -/
structure HangoutRow where
  id : String
  user_id : String
  avatar_x : Int
  avatar_y : Int
  avatar_type : String
deriving DecidableEq

/-- Enrichment step of reloadParticipants (HangoutOverlay.tsx lines
175-178): attach to each row the profile found by its user_id. -/
def enrichRows (rows : List HangoutRow) (profiles : List Profile) :
    List Participant :=
  rows.map fun h =>
    { id := h.id, user_id := h.user_id, avatar_x := h.avatar_x,
      avatar_y := h.avatar_y, avatar_type := h.avatar_type,
      profile := profiles.find? (fun p => p.id = h.user_id) }

/-- Completion step of reloadParticipants (HangoutOverlay.tsx lines
160-181): when the read returned data, unconditionally replace the roster
with the enriched rows; a null read result leaves the roster unchanged.
The routine keeps no generation counter: it never compares against other
in-flight reloads. -/
def applyReloadResult (ps : List Participant)
    (result : Option (List HangoutRow × List Profile)) : List Participant :=
  match result with
  | some (rows, profiles) => enrichRows rows profiles
  | none => ps

/-- Observable scheduling events of overlapping reloads: a reload (tagged
by a reload id) starts its read, or its read completes with a result. -/
inductive ReloadEvent where
  | started (rid : Nat)
  | completed (rid : Nat) (result : Option (List HangoutRow × List Profile))
deriving DecidableEq

/-- Effect of one reload scheduling event on the roster state: starting a
read changes nothing; a completion applies its result unconditionally. -/
def stepReload (ps : List Participant) : ReloadEvent → List Participant
  | .started _ => ps
  | .completed _ r => applyReloadResult ps r

/-- Run an interleaving of reload starts/completions in event-loop order. -/
def runReloads (ps : List Participant) (evs : List ReloadEvent) :
    List Participant :=
  evs.foldl stepReload ps

/-- Helper: mapping a function that fixes every element of a list is the
identity on that list. -/
theorem map_eq_self_of_forall {α : Type} (f : α → α) :
    ∀ (l : List α), (∀ a ∈ l, f a = a) → l.map f = l
  | [], _ => rfl
  | a :: l, h => by
    have ha := h a (List.mem_cons_self a l)
    have hl := map_eq_self_of_forall f l (fun b hb => h b (List.mem_cons_of_mem a hb))
    simp [ha, hl]

/-- C9: an avatar-move event for user `uid` only rewrites avatar_x/avatar_y
of roster entries whose user_id is `uid`; every other entry is unchanged,
the length and the sequence of user_ids are preserved, and when no entry
matches the roster is entirely unchanged (the handler is total: a stale
message for a departed participant is ignored without error). -/
theorem avatar_move_frame (ps : List Participant) (uid : String) (x y : Int) :
    (applyAvatarMove ps uid x y).length = ps.length
    ∧ (∀ i : Nat, (applyAvatarMove ps uid x y)[i]? =
        (ps[i]?).map (fun p =>
          if p.user_id = uid then { p with avatar_x := x, avatar_y := y } else p))
    ∧ (applyAvatarMove ps uid x y).map Participant.user_id = ps.map Participant.user_id
    ∧ ((∀ p ∈ ps, p.user_id ≠ uid) → applyAvatarMove ps uid x y = ps) := by
  refine ⟨by simp [applyAvatarMove], fun i => by simp [applyAvatarMove], ?_, ?_⟩
  · unfold applyAvatarMove
    rw [List.map_map]
    apply List.map_congr_left
    intro p _
    by_cases h : p.user_id = uid <;> simp [h]
  · intro h
    exact map_eq_self_of_forall _ ps (fun p hp => by simp [h p hp])

/-- Witness for C9 at a concrete roster: a move event for an absent user id
leaves the roster unchanged. -/
theorem avatar_move_frame_witness :
    applyAvatarMove
      [{ id := "s1", user_id := "u1", avatar_x := 100, avatar_y := 100,
         avatar_type := "default", profile := none }]
      "u2" 5 6
      = [{ id := "s1", user_id := "u1", avatar_x := 100, avatar_y := 100,
           avatar_type := "default", profile := none }] :=
  (avatar_move_frame
    [{ id := "s1", user_id := "u1", avatar_x := 100, avatar_y := 100,
       avatar_type := "default", profile := none }] "u2" 5 6).2.2.2
    (by decide)

/-- C1: while a local drag is active (isDragging), consuming a remote
avatar-move broadcast for the dragged participant's own id leaves the
displayed position unchanged: the broadcast handler rewrites the roster
entry, but the position-sync effect is gated on the drag flag, so the
display keeps showing the drag position P whatever position Q the event
claims. -/
theorem localDrag_wins_over_remote_move (s : AvatarState)
    (ps : List Participant) (uid : String) (qx qy : Int) (selfId : String)
    (h : s.isDragging = true) :
    displayedAfterMove s ps uid qx qy selfId = s.position := by
  unfold displayedAfterMove
  cases hf : (applyAvatarMove ps uid qx qy).find? (fun p => p.user_id = selfId) with
  | none => rfl
  | some p => simp [syncPosition, h]

/-- Witness for C1: a dragged avatar displayed at (300, 150) still displays
(300, 150) after a remote event claiming (7, 8) for its own id. -/
theorem localDrag_wins_over_remote_move_witness :
    displayedAfterMove
      { position := (300, 150), isDragging := true, isHovering := false,
        currentAction := none, showActions := false }
      [{ id := "s1", user_id := "u1", avatar_x := 100, avatar_y := 100,
         avatar_type := "default", profile := none }]
      "u1" 7 8 "u1" = (300, 150) :=
  localDrag_wins_over_remote_move
    { position := (300, 150), isDragging := true, isHovering := false,
      currentAction := none, showActions := false }
    [{ id := "s1", user_id := "u1", avatar_x := 100, avatar_y := 100,
       avatar_type := "default", profile := none }]
    "u1" 7 8 "u1" rfl

/-- C2 counterexample: at pointer-up with the pointer still hovering the
avatar (isHovering = true), the handler still requests
setIgnoreMouseEvents(true) — capture is released, not retained until hover
ends, contradicting the claim. -/
theorem dragEnd_release_cex :
    ({ position := (300, 150), isDragging := true, isHovering := true,
       currentAction := none, showActions := false } : AvatarState).isHovering = true
    ∧ (handleMouseUp
        { position := (300, 150), isDragging := true, isHovering := true,
          currentAction := none, showActions := false }
        "c1" "u1" [] true).ignoreMouse = true := by
  decide

/-- C2 amended: when a local drag ends with pointer-up, input capture is
always released (the handler unconditionally requests click-through),
regardless of whether the pointer is still hovering an avatar, and the drag
flag is cleared. -/
theorem dragEnd_always_releases_capture (s : AvatarState) (conv uid : String)
    (store : List SessionRow) (ok : Bool) :
    (handleMouseUp s conv uid store ok).ignoreMouse = true
    ∧ (handleMouseUp s conv uid store ok).avatar.isDragging = false :=
  ⟨rfl, rfl⟩

/-- C6: pointer-up commits the final displayed position as an update (never
an insert: the store keeps its length) of the rows keyed by
(conversation_id, user_id); every other row is unchanged; on write failure
the store is untouched; and in every case the local displayed position is
kept as-is (no rollback). The model applies the write exactly once, with no
retry path. -/
theorem drag_commit_update_spec (s : AvatarState) (conv uid : String)
    (store : List SessionRow) (ok : Bool) :
    (handleMouseUp s conv uid store ok).avatar.position = s.position
    ∧ (handleMouseUp s conv uid store ok).store.length = store.length
    ∧ (ok = false → (handleMouseUp s conv uid store ok).store = store)
    ∧ (ok = true → ∀ i : Nat,
        (handleMouseUp s conv uid store ok).store[i]? =
          (store[i]?).map (fun r =>
            if r.conversation_id = conv ∧ r.user_id = uid then
              { r with avatar_x := s.position.1, avatar_y := s.position.2 }
            else r)) := by
  refine ⟨rfl, ?_, ?_, ?_⟩
  · cases ok <;> simp [handleMouseUp, updateSession]
  · intro hok
    simp [handleMouseUp, hok]
  · intro hok i
    simp [handleMouseUp, hok, updateSession]

/-- Witness for C6: a drag released at (300, 150) rewrites the existing row
for ("c1", "u1") from (100, 100) to (300, 150). -/
theorem drag_commit_update_spec_witness :
    (handleMouseUp
      { position := (300, 150), isDragging := true, isHovering := false,
        currentAction := none, showActions := false }
      "c1" "u1"
      [{ conversation_id := "c1", user_id := "u1", avatar_x := 100, avatar_y := 100 }]
      true).store[0]? =
      some { conversation_id := "c1", user_id := "u1", avatar_x := 300, avatar_y := 150 } := by
  have h := (drag_commit_update_spec
      { position := (300, 150), isDragging := true, isHovering := false,
        currentAction := none, showActions := false }
      "c1" "u1"
      [{ conversation_id := "c1", user_id := "u1", avatar_x := 100, avatar_y := 100 }]
      true).2.2.2 rfl 0
  exact h.trans (by decide)

/-- C7: every pointer-move tick displays the pointer position minus the
drag offset clamped to [0, innerWidth - 150] x [0, innerHeight - 200],
publishes an avatar-move event with exactly the displayed coordinates, and
(for a non-degenerate surface) both coordinates lie within the surface
bounds [0, w] x [0, h]. -/
theorem mouse_move_clamp_spec (w h cx cy ox oy : Int)
    (hw : 0 ≤ w) (hh : 0 ≤ h) :
    (handleMouseMove w h cx cy ox oy).displayed =
      (handleMouseMove w h cx cy ox oy).published
    ∧ (handleMouseMove w h cx cy ox oy).displayed =
        (max 0 (min (w - 150) (cx - ox)), max 0 (min (h - 200) (cy - oy)))
    ∧ 0 ≤ (handleMouseMove w h cx cy ox oy).displayed.1
    ∧ (handleMouseMove w h cx cy ox oy).displayed.1 ≤ w
    ∧ 0 ≤ (handleMouseMove w h cx cy ox oy).displayed.2
    ∧ (handleMouseMove w h cx cy ox oy).displayed.2 ≤ h := by
  refine ⟨rfl, rfl, le_max_left 0 _, ?_, le_max_left 0 _, ?_⟩
  · exact max_le hw ((min_le_left _ _).trans (by omega))
  · exact max_le hh ((min_le_left _ _).trans (by omega))

/-- Witness for C7 on a 1920 x 1080 surface: the displayed point equals the
published point and stays within the surface bounds. -/
theorem mouse_move_clamp_spec_witness :
    (handleMouseMove 1920 1080 500 400 10 20).displayed =
      (handleMouseMove 1920 1080 500 400 10 20).published
    ∧ (handleMouseMove 1920 1080 500 400 10 20).displayed.1 ≤ 1920 :=
  ⟨(mouse_move_clamp_spec 1920 1080 500 400 10 20 (by decide) (by decide)).1,
   (mouse_move_clamp_spec 1920 1080 500 400 10 20 (by decide) (by decide)).2.2.2.1⟩

/-- Helper: running a gesture trace extended by one final event first runs
the prefix, then fires due timers, then dispatches the event. -/
theorem runGesture_append (s : GestureState) (tr : List (Nat × GestureEvent))
    (t : Nat) (e : GestureEvent) :
    runGesture s (tr ++ [(t, e)]) =
      applyGestureEvent (fireDueGesture t (runGesture s tr)) e t := by
  induction tr generalizing s with
  | nil => rfl
  | cons p rest ih =>
    cases p
    simp [runGesture, ih]

/-- C4 counterexample: receiving the bus gesture event (wave, for user u2)
at time 0 does not set any current_gesture — the avatar-action handler is a
logging stub, so the gesture is never applied, contradicting the claim that
a received gesture becomes the participant's transient current_gesture. -/
theorem bus_gesture_not_applied_cex :
    handleAvatarAction initGesture "u2" "wave" = initGesture
    ∧ gestureShownAt [(0, GestureEvent.busAction "u2" "wave")] 0 = none := by
  decide

/-- C4 amended: a gesture event received from the bus is only logged and
never changes Avatar Visual State; only a locally triggered gesture is
applied as current_gesture, and such a gesture applied at time T is no
longer displayed at T + 2100 ms absent a new gesture event (the scheduled
clear fires at T + 2000 ms). -/
theorem gesture_apply_and_autoclear_amended :
    (∀ (s : GestureState) (u a : String), handleAvatarAction s u a = s)
    ∧ (∀ (tr : List (Nat × GestureEvent)) (a : String) (T : Nat),
        gestureShownAt (tr ++ [(T, GestureEvent.localTrigger a)]) (T + 2100) = none) := by
  refine ⟨fun s u a => rfl, fun tr a T => ?_⟩
  unfold gestureShownAt
  rw [runGesture_append]
  have hle : T + 2000 ≤ T + 2100 := by omega
  simp [applyGestureEvent, triggerAction, fireDueGesture, List.any_append, hle]

/-- C5 counterexample: enter at t=0, leave at t=10, enter again at t=50
(well within the 100 ms debounce). At t=110 the timer scheduled by the
leave fires anyway — it is never cancelled — so the surface is back to
click-through (ignore = true) although the pointer is hovering,
contradicting the claim that a hover-enter during the debounce window
prevents the pending release. -/
theorem hover_debounce_cex :
    (captureStateAt
      [(0, HoverEvent.enter), (10, HoverEvent.leave), (50, HoverEvent.enter)]
      110).hovering = true
    ∧ (captureStateAt
        [(0, HoverEvent.enter), (10, HoverEvent.leave), (50, HoverEvent.enter)]
        110).ignore = true := by
  decide

/-- C5 amended: the 100 ms release scheduled on hover-leave fires
unconditionally; a hover-enter during the debounce window does not cancel
it, so for any enter/leave/re-enter sequence with the re-enter less than
100 ms after the leave, the surface is click-through again (ignore = true)
at leave + 100 ms even though the pointer is still hovering. -/
theorem debounce_release_not_cancelled (a b c : Nat)
    (hab : a ≤ b) (hbc : b ≤ c) (hc : c < b + 100) :
    (captureStateAt
      [(a, HoverEvent.enter), (b, HoverEvent.leave), (c, HoverEvent.enter)]
      (b + 100)).ignore = true
    ∧ (captureStateAt
        [(a, HoverEvent.enter), (b, HoverEvent.leave), (c, HoverEvent.enter)]
        (b + 100)).hovering = true := by
  have h1 : ¬ (b + 100 ≤ c) := by omega
  constructor <;>
    simp [captureStateAt, runHover, applyHoverEvent, fireDueCapture,
      initOverlay, h1, hc]

/-- Witness for C5 amended at the concrete times 0 / 10 / 50. -/
theorem debounce_release_not_cancelled_witness :
    (captureStateAt
      [(0, HoverEvent.enter), (10, HoverEvent.leave), (50, HoverEvent.enter)]
      110).ignore = true :=
  (debounce_release_not_cancelled 0 10 50 (by decide) (by decide) (by decide)).1

/-- C8 counterexample: reload 1 starts, reload 2 starts, reload 2 completes
first (reading position 2), then reload 1 completes (stale read, position
1). The routine applies completions unconditionally, so the final roster is
the stale read's result, not the latest-started read's, contradicting the
claim that a read is discarded once a newer reload has started. -/
theorem reload_race_cex :
    runReloads []
      [ReloadEvent.started 1, ReloadEvent.started 2,
       ReloadEvent.completed 2 (some
         ([{ id := "s1", user_id := "u1", avatar_x := 2, avatar_y := 2,
             avatar_type := "default" }], [])),
       ReloadEvent.completed 1 (some
         ([{ id := "s1", user_id := "u1", avatar_x := 1, avatar_y := 1,
             avatar_type := "default" }], []))]
      = enrichRows
          [{ id := "s1", user_id := "u1", avatar_x := 1, avatar_y := 1,
             avatar_type := "default" }] []
    ∧ enrichRows
        [{ id := "s1", user_id := "u1", avatar_x := 1, avatar_y := 1,
           avatar_type := "default" }] []
      ≠ enrichRows
          [{ id := "s1", user_id := "u1", avatar_x := 2, avatar_y := 2,
             avatar_type := "default" }] [] := by
  decide

/-- C8 amended: overlapping reloads are resolved last-completed-wins, not
latest-started-wins: whatever interleaving of starts and completions came
before, a completion carrying data unconditionally replaces the roster with
its enriched rows, so the roster finally applied is the result of the read
that completed last. -/
theorem reload_last_completed_wins (ps : List Participant)
    (evs : List ReloadEvent) (rid : Nat) (rows : List HangoutRow)
    (profiles : List Profile) :
    runReloads ps (evs ++ [ReloadEvent.completed rid (some (rows, profiles))])
      = enrichRows rows profiles := by
  simp [runReloads, List.foldl_append, stepReload, applyReloadResult]

/-- C3: an open-surface request while a live overlay window exists is
idempotent on the surface: the window handle is unchanged (not destroyed or
recreated — the fresh-id counter does not advance), the fresh roster data is
pushed to the existing window on the hangout-update channel, and
currentHangoutData is refreshed. The model holds at most one overlay window
by construction, so exactly one remains. -/
theorem ensure_surface_idempotent (s : MainState) (d : HangoutData)
    (w : SurfaceWindow) (hw : s.hangoutWindow = some w)
    (hl : w.destroyed = false) :
    (createHangoutWindow s d).hangoutWindow = some w
    ∧ (createHangoutWindow s d).nextId = s.nextId
    ∧ (createHangoutWindow s d).sent = s.sent ++ [MainMsg.hangoutUpdate w.wid d]
    ∧ (createHangoutWindow s d).currentHangoutData = some d := by
  simp [createHangoutWindow, hw, hl]

/-- Witness for C3: on a state holding a live window with id 7, a repeated
open-surface request keeps the same window. -/
theorem ensure_surface_idempotent_witness :
    (createHangoutWindow
      { hangoutWindow := some { wid := 7, destroyed := false, ignoreMouse := true },
        currentHangoutData := none, nextId := 8, sent := [] }
      { conversationId := "c1", participants := [] }).hangoutWindow
      = some { wid := 7, destroyed := false, ignoreMouse := true } :=
  (ensure_surface_idempotent
    { hangoutWindow := some { wid := 7, destroyed := false, ignoreMouse := true },
      currentHangoutData := none, nextId := 8, sent := [] }
    { conversationId := "c1", participants := [] }
    { wid := 7, destroyed := false, ignoreMouse := true } rfl rfl).1

/-- C10: when no overlay window exists, or the referenced window has been
destroyed, the close-hangout-window, set-ignore-mouse-events and
request-hangout-data IPC handlers leave the main-process state entirely
unchanged and send nothing; being total Lean functions, they raise no
error. -/
theorem ipc_noop_when_no_window (s : MainState) (b : Bool)
    (h : s.hangoutWindow = none
      ∨ ∃ w, s.hangoutWindow = some w ∧ w.destroyed = true) :
    closeHangoutWindowHandler s = s
    ∧ setIgnoreMouseEventsHandler s b = s
    ∧ requestHangoutDataHandler s = s := by
  rcases h with h | ⟨w, hw, hd⟩
  · refine ⟨?_, ?_, ?_⟩ <;>
      simp [closeHangoutWindowHandler, setIgnoreMouseEventsHandler,
        requestHangoutDataHandler, h]
  · refine ⟨?_, ?_, ?_⟩
    · simp [closeHangoutWindowHandler, hw, hd]
    · simp [setIgnoreMouseEventsHandler, hw, hd]
    · unfold requestHangoutDataHandler
      rw [hw]
      cases hcd : s.currentHangoutData <;> simp [hd]

/-- Witness for C10: on the initial state with no overlay window, all three
handlers are identities. -/
theorem ipc_noop_when_no_window_witness :
    closeHangoutWindowHandler
      { hangoutWindow := none, currentHangoutData := none, nextId := 0, sent := [] }
      = { hangoutWindow := none, currentHangoutData := none, nextId := 0, sent := [] } :=
  (ipc_noop_when_no_window
    { hangoutWindow := none, currentHangoutData := none, nextId := 0, sent := [] }
    true (Or.inl rfl)).1

end AvatarAim
